import Mathlib

/-!
Shallow embedding of the Trello synchronization subsystem of the
designworks-shadcn repository.

Sources embedded:
- src/src/lib/mcp/trello.ts : createTrelloCard, updateTrelloCard,
  addTrelloComment, buildCardDescription, buildCardLabels, getDefaultListId,
  callTrelloWithFallback, createSyncLog, updateSyncLog, calculateNextRetry.
- src/unnamed/part_006 : processFailedSyncs, retryCreateTrelloCard,
  retryUpdateTrelloCard, updateSyncLog, calculateNextRetry (the server-side
  copy of the same module, which contains the retry sweeper).
- src/src/app/dashboard/new-request/page.tsx : the Trello step of onSubmit.

Modelling conventions:
- Timestamps are Nat milliseconds since the epoch; the source stores ISO
  strings, whose ordering agrees with the numeric ordering of the instants.
- JavaScript truthiness on optional string fields (absent, null or the empty
  string are falsy) is modelled by the predicate truthy on Option String.
- The external store (supabase) is modelled as in-memory lists; row writes in
  the orchestrator succeed, and the sweeper additionally takes an oracle
  telling which ledger updates the store rejects, because the claims about
  the sweeper concern exactly that failure mode.
- The HTTP provider is an oracle record of response functions; every provider
  interaction is also recorded in an event trace so that statements of the
  form "before any network call" are expressible.
-/

/-- Models JavaScript truthiness of an optional string coming from a JSON
row: null, undefined and the empty string are falsy. -/
def truthy : Option String → Bool
  | none => false
  | some s => !(s == "")

/-- Models new Date(s).toISOString() applied to a stored timestamp string.
The claims depend only on which fields are forwarded, not on the exact
rendering, so the rendering is kept as the stored text. -/
def toISOStringJS (s : String) : String := s

/-- Models new Date(s).toLocaleDateString(). The rendering is
locale-dependent; the claims depend only on the submitted line being
present, so the rendering is kept as the stored text. -/
def toLocaleDateString (s : String) : String := s

/-- Embeds calculateNextRetry of src/src/lib/mcp/trello.ts lines 503 to 508
and the identical copy in src/unnamed/part_006: five minutes times two to
the retry count, added to the current time, in milliseconds. -/
def calculateNextRetry (now retryCount : Nat) : Nat :=
  let baseDelay := 5 * 60 * 1000
  let delay := baseDelay * 2 ^ retryCount
  now + delay

/-- Embeds the TrelloConfig interface of src/src/lib/mcp/trello.ts lines 5
to 14. Every field is optional because the JSON column may lack any of
them; the source guards each access with truthiness checks. -/
structure TrelloConfig where
  api_key : Option String
  token : Option String
  board_id : Option String
  list_id : Option String
  default_list_id : Option String
  default_members : Option (List String)
  priority_labels : Option (List (String × String))
  type_labels : Option (List (String × String))
deriving DecidableEq, Inhabited

/-- Embeds the clients row joined into a design request load: only the id
and the trello_config column are consumed by the sync subsystem. -/
structure Client where
  id : String
  trello_config : Option TrelloConfig
deriving DecidableEq

/-- Embeds a design_requests row, joined with its owning client as the
supabase select in createTrelloCard does. Only the columns the sync
subsystem reads or writes are modelled. -/
structure DesignRequest where
  id : String
  short_id : String
  client_id : String
  client : Client
  project_name : Option String
  context : Option String
  design_needs : Option String
  key_message : Option String
  size_format : Option String
  additional_notes : Option String
  contact_email : String
  priority : String
  request_type : String
  created_at : String
  deadline : Option String
  file_urls : Option (List String)
  trello_card_id : Option String
  trello_card_url : Option String
  sync_status : String
  sync_error : Option String
  sync_attempts : Option Nat
  last_sync_at : Option Nat
deriving DecidableEq

/-- Embeds the provider response to a card or comment call: an id and,
for cards, a url. -/
structure TrelloResponse where
  id : String
  url : Option String
deriving DecidableEq

/-- Embeds one element of the GET /boards/id/lists response. -/
structure TrelloList where
  id : String
  name : String
deriving DecidableEq

/-- Embeds a sync_logs row. Status values used by the source:
in_progress, completed, failed, failed_permanently, retrying. -/
structure SyncLog where
  id : Nat
  client_id : String
  design_request_id : String
  sync_type : String
  operation : String
  status : String
  trello_card_id : Option String
  trello_response : Option TrelloResponse
  synced_by : String
  error_message : Option String
  retry_count : Option Nat
  next_retry_at : Option Nat
  completed_at : Option Nat
  created_at : Nat
deriving DecidableEq

/-- Embeds the CardData interface of src/src/lib/mcp/trello.ts lines 16 to
24. idList is optional because getDefaultListId can yield undefined when
the board has no lists. -/
structure CardData where
  name : String
  desc : String
  idList : Option String
  pos : Option String
  due : Option String
  labels : List String
  members : List String
deriving DecidableEq

/-- Embeds the updateData argument of updateTrelloCard and the
trelloUpdateData object built from it: the five recognised optional
fields. -/
structure UpdateData where
  name : Option String
  desc : Option String
  due : Option String
  idList : Option String
  closed : Option Bool
deriving DecidableEq

/-- Network calls the adapter can make, recorded in the event trace. -/
inductive NetCall where
  | createCall (data : CardData)
  | updateCall (cardId : String) (data : UpdateData)
  | commentCall (cardId : String) (text : String)
  | getListsCall (boardId : String)
deriving DecidableEq

/-- Observable events of one orchestrator run, in execution order:
network calls, ledger inserts and updates, design-request row updates and
audit-activity emissions. -/
inductive Event where
  | net (c : NetCall)
  | insertLog (entry : SyncLog)
  | updateLog (id : Nat)
  | updateRequest (id : String)
  | activity (action : String)
deriving DecidableEq

/-- Oracle for the HTTP provider: the outcome of each adapter endpoint.
An error value carries the message of the raised exception. -/
structure Provider where
  createCard : CardData → Except String TrelloResponse
  updateCard : String → UpdateData → Except String TrelloResponse
  addComment : String → String → Except String TrelloResponse
  listLists : String → Except String (List TrelloList)

/-- The relational store as seen by the sync subsystem: the two tables it
writes, plus the id counter for fresh ledger rows. -/
structure DB where
  design_requests : List DesignRequest
  sync_logs : List SyncLog
  next_log_id : Nat
deriving DecidableEq

/-- Result of one orchestrator run: the returned or raised value, the
store afterwards, and the trace of observable events. -/
structure SyncOutcome where
  result : Except String TrelloResponse
  db : DB
  events : List Event

/-- Embeds buildCardDescription of src/src/lib/mcp/trello.ts lines 315 to
347 (identical copy in src/unnamed/part_006): sequential appends guarded
by truthiness of each optional field. -/
def buildCardDescription (dr : DesignRequest) : String :=
  let description := "**Design Request: " ++ dr.short_id ++ "**\n\n"
  let description := if truthy dr.context then
      description ++ "**Context:**\n" ++ dr.context.getD "" ++ "\n\n"
    else description
  let description := if truthy dr.design_needs then
      description ++ "**Design Needs:**\n" ++ dr.design_needs.getD "" ++ "\n\n"
    else description
  let description := if truthy dr.key_message then
      description ++ "**Key Message:**\n" ++ dr.key_message.getD "" ++ "\n\n"
    else description
  let description := if truthy dr.size_format then
      description ++ "**Size/Format:**\n" ++ dr.size_format.getD "" ++ "\n\n"
    else description
  let description := if truthy dr.additional_notes then
      description ++ "**Additional Notes:**\n" ++ dr.additional_notes.getD "" ++ "\n\n"
    else description
  let description := description ++ "**Contact:** " ++ dr.contact_email ++ "\n"
  let description := description ++ "**Priority:** " ++ dr.priority ++ "\n"
  let description := description ++ "**Submitted:** " ++ toLocaleDateString dr.created_at ++ "\n"
  let description := match dr.file_urls with
    | some files =>
        if 0 < files.length then
          description ++ "\n**Attached Files:** " ++ toString files.length ++ " file(s)"
        else description
    | none => description
  description

/-- Embeds buildCardLabels of src/src/lib/mcp/trello.ts lines 352 to 368:
the priority label, if configured and truthy, then the request-type label,
if configured and truthy. -/
def buildCardLabels (dr : DesignRequest) (cfg : TrelloConfig) : List String :=
  let priorityPart : List String :=
    match cfg.priority_labels with
    | some m =>
        match m.lookup dr.priority with
        | some v => if v == "" then [] else [v]
        | none => []
    | none => []
  let typePart : List String :=
    match cfg.type_labels with
    | some m =>
        match m.lookup dr.request_type with
        | some v => if v == "" then [] else [v]
        | none => []
    | none => []
  priorityPart ++ typePart

/-- Embeds lines 189 to 195 of updateTrelloCard: the trelloUpdateData
object holds name, desc, due and idList only when truthy in the caller
supplied updateData (due converted to an ISO string), and closed exactly
when it is not undefined. -/
def buildTrelloUpdateData (u : UpdateData) : UpdateData :=
  { name := if truthy u.name then u.name else none
  , desc := if truthy u.desc then u.desc else none
  , due := if truthy u.due then u.due.map toISOStringJS else none
  , idList := if truthy u.idList then u.idList else none
  , closed := u.closed }

/-- Embeds the error wrapping of callTrelloWithFallback line 425: a failed
adapter call is re-raised with the operation name prefixed. -/
def wrapProviderError (operation : String) :
    Except String TrelloResponse → Except String TrelloResponse
  | .ok r => .ok r
  | .error e => .error ("Trello " ++ operation ++ " failed: " ++ e)

/-- Embeds getDefaultListId of src/src/lib/mcp/trello.ts lines 373 to 385:
the configured default_list_id when truthy, otherwise the id of the first
list returned by the provider for the board (undefined when the board has
no lists); a provider failure is re-raised as a fixed message. The second
component is the trace of network calls made. -/
def getDefaultListId (P : Provider) (cfg : TrelloConfig) :
    Except String (Option String) × List Event :=
  if truthy cfg.default_list_id then (.ok cfg.default_list_id, [])
  else
    match P.listLists (cfg.board_id.getD "") with
    | .ok lists =>
        (.ok (lists.head?.map TrelloList.id), [.net (.getListsCall (cfg.board_id.getD ""))])
    | .error _ =>
        (.error "Failed to get default list ID", [.net (.getListsCall (cfg.board_id.getD ""))])

/-- Embeds the idList resolution of createTrelloCard line 58: the
configured list_id when truthy, otherwise the result of getDefaultListId. -/
def resolveIdList (P : Provider) (cfg : TrelloConfig) :
    Except String (Option String) × List Event :=
  if truthy cfg.list_id then (.ok cfg.list_id, [])
  else getDefaultListId P cfg

/-- Applies an update function to the design_requests row with the given
id, as a supabase update filtered on id does. -/
def updateRequestRow (db : DB) (rid : String) (f : DesignRequest → DesignRequest) : DB :=
  { db with design_requests := db.design_requests.map (fun r => if r.id == rid then f r else r) }

/-- Applies an update function to the sync_logs row with the given id, as
updateSyncLog of the source does. -/
def updateLogRow (db : DB) (lid : Nat) (f : SyncLog → SyncLog) : DB :=
  { db with sync_logs := db.sync_logs.map (fun l => if l.id == lid then f l else l) }

/-- Checks the configuration guard of createTrelloCard lines 49 to 52:
the config object and its api_key, token and board_id must all be
truthy. -/
def configOkCreate : Option TrelloConfig → Bool
  | none => false
  | some cfg => truthy cfg.api_key && truthy cfg.token && truthy cfg.board_id

/-- Checks the configuration guard of updateTrelloCard lines 171 to 174 and
addTrelloComment lines 279 to 282: the config object and its api_key and
token must be truthy; board_id is not checked on these paths. -/
def configOkUpdate : Option TrelloConfig → Bool
  | none => false
  | some cfg => truthy cfg.api_key && truthy cfg.token

/-- Builds the cardData object of createTrelloCard lines 55 to 63, given
the already resolved idList. -/
def buildCardData (dr : DesignRequest) (cfg : TrelloConfig) (idList : Option String) : CardData :=
  { name := dr.short_id ++ ": " ++ (if truthy dr.project_name then dr.project_name.getD "" else "Design Request")
  , desc := buildCardDescription dr
  , idList := idList
  , pos := some "top"
  , due := if truthy dr.deadline then dr.deadline.map toISOStringJS else none
  , labels := buildCardLabels dr cfg
  , members := cfg.default_members.getD [] }

/-- Builds the in_progress ledger row inserted by createSyncLog for the
given operation, mirroring the insert payloads at createTrelloCard lines
66 to 73 and updateTrelloCard lines 177 to 185. -/
def newSyncLog (db : DB) (now : Nat) (dr : DesignRequest) (operation : String)
    (cardId : Option String) : SyncLog :=
  { id := db.next_log_id
  , client_id := dr.client_id
  , design_request_id := dr.id
  , sync_type := "trello_card"
  , operation := operation
  , status := "in_progress"
  , trello_card_id := cardId
  , trello_response := none
  , synced_by := "pending"
  , error_message := none
  , retry_count := none
  , next_retry_at := none
  , completed_at := none
  , created_at := now }

/-- Embeds createTrelloCard of src/src/lib/mcp/trello.ts lines 29 to 144:
load the request with its client, check the configuration, resolve the
target list, build the card, insert an in_progress ledger row, call the
provider, and record success or failure in the ledger and on the request
row, re-raising any provider error. -/
def createTrelloCard (P : Provider) (now : Nat) (db : DB) (reqId : String) : SyncOutcome :=
  match db.design_requests.find? (fun r => r.id == reqId) with
  | none => ⟨.error "Design request not found", db, []⟩
  | some dr =>
    if !configOkCreate dr.client.trello_config then
      ⟨.error "Trello configuration not found for client", db, []⟩
    else
      let cfg := (dr.client.trello_config).getD default
      match resolveIdList P cfg with
      | (.error msg, listEvents) => ⟨.error msg, db, listEvents⟩
      | (.ok idList, listEvents) =>
        let card := buildCardData dr cfg idList
        let entry := newSyncLog db now dr "create" none
        let db1 : DB := { db with
          sync_logs := db.sync_logs ++ [entry]
          next_log_id := db.next_log_id + 1 }
        match wrapProviderError "create" (P.createCard card) with
        | .ok resp =>
            let db2 := updateRequestRow db1 reqId (fun r =>
              { r with trello_card_id := some resp.id
                     , trello_card_url := resp.url
                     , sync_status := "synced"
                     , last_sync_at := some now
                     , sync_error := none })
            let db3 := updateLogRow db2 entry.id (fun l =>
              { l with status := "completed"
                     , trello_card_id := some resp.id
                     , trello_response := some resp
                     , synced_by := "direct_api"
                     , completed_at := some now })
            ⟨.ok resp, db3,
              listEvents ++ [.insertLog entry, .net (.createCall card),
                .updateRequest reqId, .updateLog entry.id, .activity "trello_card_created"]⟩
        | .error emsg =>
            let db2 := updateLogRow db1 entry.id (fun l =>
              { l with status := "failed"
                     , error_message := some emsg
                     , retry_count := some 0
                     , next_retry_at := some (calculateNextRetry now 0) })
            let db3 := updateRequestRow db2 reqId (fun r =>
              { r with sync_status := "failed"
                     , sync_error := some emsg
                     , sync_attempts := some (dr.sync_attempts.getD 0 + 1) })
            ⟨.error emsg, db3,
              listEvents ++ [.insertLog entry, .net (.createCall card),
                .updateLog entry.id, .updateRequest reqId]⟩

/-- Embeds updateTrelloCard of src/src/lib/mcp/trello.ts lines 149 to 252:
load the request, require an associated card and an api_key and token,
insert an in_progress ledger row, forward only the truthy subset of the
supplied update fields, and record success or failure; on failure only the
ledger row is touched before the error is re-raised. -/
def updateTrelloCard (P : Provider) (now : Nat) (db : DB) (reqId : String)
    (updateData : UpdateData) : SyncOutcome :=
  match db.design_requests.find? (fun r => r.id == reqId) with
  | none => ⟨.error "Design request not found", db, []⟩
  | some dr =>
    if !truthy dr.trello_card_id then
      ⟨.error "No Trello card associated with this request", db, []⟩
    else if !configOkUpdate dr.client.trello_config then
      ⟨.error "Trello configuration not found for client", db, []⟩
    else
      let cardId := dr.trello_card_id.getD ""
      let entry := newSyncLog db now dr "update" dr.trello_card_id
      let db1 : DB := { db with
        sync_logs := db.sync_logs ++ [entry]
        next_log_id := db.next_log_id + 1 }
      let fields := buildTrelloUpdateData updateData
      match wrapProviderError "update" (P.updateCard cardId fields) with
      | .ok resp =>
          let db2 := updateLogRow db1 entry.id (fun l =>
            { l with status := "completed"
                   , trello_response := some resp
                   , synced_by := "direct_api"
                   , completed_at := some now })
          let db3 := updateRequestRow db2 reqId (fun r =>
            { r with sync_status := "synced"
                   , last_sync_at := some now
                   , sync_error := none })
          ⟨.ok resp, db3,
            [.insertLog entry, .net (.updateCall cardId fields),
              .updateLog entry.id, .updateRequest reqId, .activity "trello_card_updated"]⟩
      | .error emsg =>
          let db2 := updateLogRow db1 entry.id (fun l =>
            { l with status := "failed"
                   , error_message := some emsg
                   , retry_count := some 0
                   , next_retry_at := some (calculateNextRetry now 0) })
          ⟨.error emsg, db2,
            [.insertLog entry, .net (.updateCall cardId fields), .updateLog entry.id]⟩

/-- Embeds addTrelloComment of src/src/lib/mcp/trello.ts lines 257 to 310:
load the request, require an associated card and an api_key and token,
call the provider and emit an activity event. No sync_logs row is created
or updated anywhere on this path. -/
def addTrelloComment (P : Provider) (_now : Nat) (db : DB) (reqId : String)
    (comment : String) : SyncOutcome :=
  match db.design_requests.find? (fun r => r.id == reqId) with
  | none => ⟨.error "Design request not found", db, []⟩
  | some dr =>
    if !truthy dr.trello_card_id then
      ⟨.error "No Trello card associated with this request", db, []⟩
    else if !configOkUpdate dr.client.trello_config then
      ⟨.error "Trello configuration not found for client", db, []⟩
    else
      let cardId := dr.trello_card_id.getD ""
      match wrapProviderError "comment" (P.addComment cardId comment) with
      | .ok resp =>
          ⟨.ok resp, db, [.net (.commentCall cardId comment), .activity "trello_comment_added"]⟩
      | .error emsg =>
          ⟨.error emsg, db, [.net (.commentCall cardId comment)]⟩

/-- Embeds the Trello step of onSubmit in
src/src/app/dashboard/new-request/page.tsx lines 131 to 142: after a
successful insert, createTrelloCard is attempted inside a try block whose
catch only logs a warning, and the flow then proceeds to the success
redirect unconditionally. The boolean is whether the submission reaches
the success redirect. -/
def submitTrelloStep (P : Provider) (now : Nat) (db : DB) (reqId : String) : Bool × DB :=
  let outcome := createTrelloCard P now db reqId
  (true, outcome.db)

/-- Embeds the sync_logs selection of processFailedSyncs in
src/unnamed/part_006 lines 1041 to 1054: status failed or retrying,
next_retry_at present and not after now (a null timestamp never satisfies
the SQL comparison), and retry_count present and under 5. -/
def sweepSelects (now : Nat) (l : SyncLog) : Bool :=
  (l.status == "failed" || l.status == "retrying")
    && (match l.next_retry_at with
        | some t => decide (t ≤ now)
        | none => false)
    && (match l.retry_count with
        | some k => decide (k < 5)
        | none => false)

/-- Embeds the renewed-failure bookkeeping of processFailedSyncs lines 1082
to 1094, applied to the selected row: increment retry_count; at 5 the
status becomes failed_permanently and next_retry_at null, otherwise the
status stays failed and next_retry_at is recomputed by the backoff formula
at the new count. The count is read from the selected in-memory row, which
the sweeper guarantees carries a numeric retry_count. -/
def renewedFailureFields (now : Nat) (msg : String) (selected l : SyncLog) : SyncLog :=
  let newRetryCount := selected.retry_count.getD 0 + 1
  { l with
    status := if 5 ≤ newRetryCount then "failed_permanently" else "failed"
    error_message := some msg
    retry_count := some newRetryCount
    next_retry_at := if 5 ≤ newRetryCount then none
      else some (calculateNextRetry now newRetryCount) }

/-- One element of the results array built by processFailedSyncs. -/
structure RetryResult where
  sync_log_id : Nat
  success : Bool
  error : Option String
  retry_count : Option Nat
deriving DecidableEq

/-- Embeds the per-entry dispatch of processFailedSyncs lines 1064 to 1069
together with retryCreateTrelloCard (line 1382) and retryUpdateTrelloCard
(lines 1390 to 1407): a create entry re-runs createTrelloCard; an update
entry reloads the request and re-runs updateTrelloCard with a rebuilt name
and description; any other entry leaves result undefined and counts as a
success. -/
def sweepAttempt (P : Provider) (now : Nat) (db : DB) (l : SyncLog) :
    Except String Unit × DB :=
  if l.sync_type == "trello_card" && l.operation == "create" then
    let o := createTrelloCard P now db l.design_request_id
    (o.result.map (fun _ => ()), o.db)
  else if l.sync_type == "trello_card" && l.operation == "update" then
    match db.design_requests.find? (fun r => r.id == l.design_request_id) with
    | none => (.error "Design request not found for retry", db)
    | some dr =>
        let o := updateTrelloCard P now db l.design_request_id
          { name := some (dr.short_id ++ ": " ++
              (if truthy dr.project_name then dr.project_name.getD "" else "Design Request"))
          , desc := some (buildCardDescription dr)
          , due := none, idList := none, closed := none }
        (o.result.map (fun _ => ()), o.db)
  else (.ok (), db)

/-- Embeds the for loop of processFailedSyncs lines 1059 to 1096. The
updateFails oracle tells which ledger ids the store rejects when the
renewed-failure bookkeeping write runs; a rejected write makes the
embedded updateSyncLog (part_006 lines 1350 to 1363) raise, and that
exception is raised inside the catch handler, so it escapes the loop and
aborts the remaining entries, exactly as in the source. -/
def sweepLoop (P : Provider) (updateFails : Nat → Bool) (now : Nat) :
    List SyncLog → DB → List RetryResult → Except String (List RetryResult) × DB
  | [], db, acc => (.ok acc.reverse, db)
  | l :: rest, db, acc =>
    match sweepAttempt P now db l with
    | (.ok _, db1) =>
        sweepLoop P updateFails now rest db1
          ({ sync_log_id := l.id, success := true, error := none, retry_count := none } :: acc)
    | (.error msg, db1) =>
        if updateFails l.id then
          (.error "Failed to update sync log: store rejected the write", db1)
        else
          let db2 := updateLogRow db1 l.id (renewedFailureFields now msg l)
          sweepLoop P updateFails now rest db2
            ({ sync_log_id := l.id, success := false, error := some msg
             , retry_count := some (l.retry_count.getD 0 + 1) } :: acc)

/-- Embeds processFailedSyncs of src/unnamed/part_006 lines 1037 to 1110:
select up to 10 eligible ledger entries in creation order (the sync_logs
list is kept in creation order) and run the retry loop over them; an
escaped exception reaches the outer catch and is re-raised. -/
def processFailedSyncs (P : Provider) (updateFails : Nat → Bool) (now : Nat)
    (db : DB) : Except String (List RetryResult) × DB :=
  let batch := (db.sync_logs.filter (sweepSelects now)).take 10
  sweepLoop P updateFails now batch db []

/-- C3: the next retry time is now plus 5 minutes times 2 to the retry
count, with no jitter and no cap: it is strictly increasing in the retry
count and exceeds every bound for a large enough count. -/
theorem calculateNextRetry_exponential (now : Nat) :
    (∀ n : Nat, calculateNextRetry now n = now + 5 * 60 * 1000 * 2 ^ n) ∧
    StrictMono (calculateNextRetry now) ∧
    (∀ bound : Nat, ∃ n : Nat, bound < calculateNextRetry now n) := by
  refine ⟨fun n => rfl, ?_, ?_⟩
  · intro m n hmn
    have h2 : (2 : Nat) ^ m < 2 ^ n := Nat.pow_lt_pow_right (by omega) hmn
    simp only [calculateNextRetry]
    have : 5 * 60 * 1000 * 2 ^ m < 5 * 60 * 1000 * 2 ^ n :=
      mul_lt_mul_of_pos_left h2 (by omega)
    omega
  · intro bound
    refine ⟨bound, ?_⟩
    have h2 : bound < 2 ^ bound := Nat.lt_two_pow bound
    simp only [calculateNextRetry]
    have : 1 * 2 ^ bound ≤ 5 * 60 * 1000 * 2 ^ bound :=
      Nat.mul_le_mul_right _ (by omega)
    omega

/-- Witness for C3: instantiates the backoff theorem at retry counts 0 and 1
and the bound 1000000. -/
theorem calculateNextRetry_exponential_witness :
    calculateNextRetry 100 0 = 100 + 5 * 60 * 1000 * 2 ^ 0 ∧
    calculateNextRetry 100 0 < calculateNextRetry 100 1 ∧
    ∃ n : Nat, 1000000 < calculateNextRetry 100 n := by
  have h := calculateNextRetry_exponential 100
  exact ⟨h.1 0, h.2.1 (by omega : (0 : Nat) < 1), h.2.2 1000000⟩

/-- Renders one optional description section: the given bold header line
followed by the field content and a blank line, when the field is truthy,
and nothing at all otherwise. Specification-side decomposition target for
buildCardDescription. -/
def optSection (header : String) (f : Option String) : String :=
  if truthy f then header ++ f.getD "" ++ "\n\n" else ""

/-- Renders the attachment-count suffix of the description: present exactly
when file_urls is a non-empty array. -/
def attachSuffix : Option (List String) → String
  | some files =>
      if 0 < files.length then
        "\n**Attached Files:** " ++ toString files.length ++ " file(s)"
      else ""
  | none => ""

/-- Holds exactly when the source condition file_urls and
file_urls.length greater than zero holds. -/
def hasAttachments : Option (List String) → Bool
  | some files => decide (0 < files.length)
  | none => false

set_option maxHeartbeats 3200000 in
/-- C7: the description is the fixed heading, then the five optional
sections in the fixed order Context, Design Needs, Key Message,
Size/Format, Additional Notes, then the mandatory Contact, Priority and
Submitted lines, then the attachment-count suffix; an optional section is
empty iff its field is absent or empty, a rendered section is always its
bold header followed by non-empty content, and the attachment suffix is
present iff attachments exist. -/
theorem buildCardDescription_sections :
    (∀ dr : DesignRequest, buildCardDescription dr =
      "**Design Request: " ++ dr.short_id ++ "**\n\n"
        ++ optSection "**Context:**\n" dr.context
        ++ optSection "**Design Needs:**\n" dr.design_needs
        ++ optSection "**Key Message:**\n" dr.key_message
        ++ optSection "**Size/Format:**\n" dr.size_format
        ++ optSection "**Additional Notes:**\n" dr.additional_notes
        ++ ("**Contact:** " ++ dr.contact_email ++ "\n")
        ++ ("**Priority:** " ++ dr.priority ++ "\n")
        ++ ("**Submitted:** " ++ toLocaleDateString dr.created_at ++ "\n")
        ++ attachSuffix dr.file_urls) ∧
    (∀ header : String, ∀ f : Option String,
      optSection header f = "" ↔ truthy f = false) ∧
    (∀ header : String, ∀ f : Option String, truthy f = true →
      ∃ c : String, c ≠ "" ∧ optSection header f = header ++ c ++ "\n\n") ∧
    (∀ fu : Option (List String), attachSuffix fu = "" ↔ hasAttachments fu = false) := by
  refine ⟨?_, ?_, ?_, ?_⟩
  · intro dr
    simp only [buildCardDescription, optSection, attachSuffix]
    cases dr.file_urls with
    | none =>
        split_ifs <;>
          simp only [String.append_assoc, String.append_empty, String.empty_append]
    | some files =>
        by_cases hlen : 0 < files.length
        · simp only [if_pos hlen]
          split_ifs <;>
            simp only [String.append_assoc, String.append_empty, String.empty_append]
        · simp only [if_neg hlen]
          split_ifs <;>
            simp only [String.append_assoc, String.append_empty, String.empty_append]
  · intro header f
    cases hf : truthy f
    · simp [optSection, hf]
    · simp only [optSection, hf, if_pos]
      constructor
      · intro h
        have hl := congrArg String.length h
        simp only [String.length_append] at hl
        have h2 : String.length "\n\n" = 2 := rfl
        have h0 : String.length "" = 0 := rfl
        omega
      · intro h
        exact absurd h (by simp)
  · intro header f hf
    match f with
    | none => simp [truthy] at hf
    | some s =>
      have hs : s ≠ "" := by simpa [truthy] using hf
      exact ⟨s, hs, by simp [optSection, truthy, hs]⟩
  · intro fu
    match fu with
    | none => simp [attachSuffix, hasAttachments]
    | some files =>
      simp only [attachSuffix, hasAttachments]
      by_cases hlen : 0 < files.length
      · rw [if_pos hlen]
        constructor
        · intro h
          have hl := congrArg String.length h
          simp only [String.length_append] at hl
          have h2 : String.length "\n**Attached Files:** " = 21 := rfl
          have h0 : String.length "" = 0 := rfl
          omega
        · intro h
          simp [hlen] at h
      · rw [if_neg hlen]
        simp [hlen]

/-- Witness for C7: instantiates the section lemmas at a present Context
field and a two-element attachment list. -/
theorem buildCardDescription_sections_witness :
    (∃ c : String, c ≠ "" ∧
      optSection "**Context:**\n" (some "bg") = "**Context:**\n" ++ c ++ "\n\n") ∧
    (optSection "**Context:**\n" (some "") = "" ↔ truthy (some "") = false) ∧
    (attachSuffix (some ["a", "b"]) = "" ↔ hasAttachments (some ["a", "b"]) = false) :=
  ⟨buildCardDescription_sections.2.2.1 "**Context:**\n" (some "bg") (by decide),
   buildCardDescription_sections.2.1 "**Context:**\n" (some ""),
   buildCardDescription_sections.2.2.2 (some ["a", "b"])⟩

/-- Concrete client configuration used by witness instantiations. -/
def testConfig : TrelloConfig :=
  { api_key := some "k", token := some "t", board_id := some "b"
  , list_id := some "L", default_list_id := none, default_members := none
  , priority_labels := none, type_labels := none }

/-- Concrete client used by witness instantiations. -/
def testClient : Client := ⟨"client1", some testConfig⟩

/-- Concrete design request used by witness instantiations. -/
def testRequest : DesignRequest :=
  { id := "r1", short_id := "DR-1", client_id := "client1", client := testClient
  , project_name := some "Logo", context := none, design_needs := none
  , key_message := none, size_format := none, additional_notes := none
  , contact_email := "a@b.c", priority := "normal", request_type := "design_request"
  , created_at := "2025-01-01", deadline := none, file_urls := none
  , trello_card_id := some "card1", trello_card_url := none
  , sync_status := "pending", sync_error := none, sync_attempts := none
  , last_sync_at := none }

/-- Concrete store used by witness instantiations. -/
def testDB : DB := ⟨[testRequest], [], 0⟩

/-- Provider oracle whose calls all succeed, used by witness
instantiations. -/
def okProvider : Provider :=
  ⟨fun _ => .ok ⟨"newcard", some "url"⟩, fun _ _ => .ok ⟨"newcard", some "url"⟩,
   fun _ _ => .ok ⟨"cmt", none⟩, fun _ => .ok [⟨"L1", "A"⟩, ⟨"L2", "B"⟩]⟩

/-- Provider oracle whose calls all fail, used by witness
instantiations. -/
def failProvider : Provider :=
  ⟨fun _ => .error "401 unauthorized", fun _ _ => .error "401 unauthorized",
   fun _ _ => .error "401 unauthorized", fun _ => .error "500"⟩

/-- C8: the update path forwards exactly the truthy subset of the caller
supplied name, desc, due and idList plus closed whenever it was supplied
at all: an unsupplied field is never sent, a sent field was supplied, and
the only network call updateTrelloCard makes carries precisely
buildTrelloUpdateData of the caller input. -/
theorem updateTrelloCard_partial_update :
    (∀ u : UpdateData,
      (u.name = none → (buildTrelloUpdateData u).name = none) ∧
      ((buildTrelloUpdateData u).name.isSome → u.name.isSome) ∧
      (u.desc = none → (buildTrelloUpdateData u).desc = none) ∧
      ((buildTrelloUpdateData u).desc.isSome → u.desc.isSome) ∧
      (u.due = none → (buildTrelloUpdateData u).due = none) ∧
      ((buildTrelloUpdateData u).due.isSome → u.due.isSome) ∧
      (u.idList = none → (buildTrelloUpdateData u).idList = none) ∧
      ((buildTrelloUpdateData u).idList.isSome → u.idList.isSome) ∧
      (buildTrelloUpdateData u).closed = u.closed) ∧
    (∀ (P : Provider) (now : Nat) (db : DB) (reqId : String) (u : UpdateData)
       (dr : DesignRequest),
      db.design_requests.find? (fun r => r.id == reqId) = some dr →
      truthy dr.trello_card_id = true →
      configOkUpdate dr.client.trello_config = true →
      ∀ ev ∈ (updateTrelloCard P now db reqId u).events,
        (∃ c, ev = .net c) →
        ev = .net (.updateCall (dr.trello_card_id.getD "") (buildTrelloUpdateData u))) := by
  constructor
  · intro u
    cases hn : u.name <;> cases hd : u.desc <;> cases hu : u.due <;>
      cases hi : u.idList <;>
        simp [buildTrelloUpdateData, truthy, hn, hd, hu, hi]
  · intro P now db reqId u dr hfind hcard hcfg ev hev hnet
    obtain ⟨c, rfl⟩ := hnet
    cases hp : P.updateCard (dr.trello_card_id.getD "") (buildTrelloUpdateData u) with
    | ok r =>
        simp [updateTrelloCard, hfind, hcard, hcfg, wrapProviderError, hp] at hev
        simp [hev]
    | error e =>
        simp [updateTrelloCard, hfind, hcard, hcfg, wrapProviderError, hp] at hev
        simp [hev]

/-- Witness for C8: a concrete update carrying only a name is forwarded
with desc, due and idList absent, and a concrete run against the test
store sends only the update network call. -/
theorem updateTrelloCard_partial_update_witness :
    ((UpdateData.mk (some "n") none none none none).name = none →
      (buildTrelloUpdateData (UpdateData.mk (some "n") none none none none)).name = none) ∧
    ((buildTrelloUpdateData (UpdateData.mk (some "n") none none none none)).desc.isSome →
      (UpdateData.mk (some "n") none none none none).desc.isSome) ∧
    (Event.net (.updateCall "card1" (buildTrelloUpdateData (UpdateData.mk (some "n") none none none none))) =
      .net (.updateCall (testRequest.trello_card_id.getD "")
        (buildTrelloUpdateData (UpdateData.mk (some "n") none none none none)))) := by
  refine ⟨(updateTrelloCard_partial_update.1 (UpdateData.mk (some "n") none none none none)).1,
          (updateTrelloCard_partial_update.1 (UpdateData.mk (some "n") none none none none)).2.2.2.1,
          ?_⟩
  exact updateTrelloCard_partial_update.2 okProvider 0 testDB "r1"
    (UpdateData.mk (some "n") none none none none) testRequest (by decide) (by decide) (by decide)
    (.net (.updateCall "card1" (buildTrelloUpdateData (UpdateData.mk (some "n") none none none none))))
    (by decide) ⟨_, rfl⟩

/-- C9: when neither list_id nor default_list_id is configured, the create
path asks the provider for the board lists and the new card is created in
the first list of the returned sequence: the trace is exactly the list
query, then the ledger insert, then the create call whose idList is the
first returned id. -/
theorem createTrelloCard_first_list_default :
    ∀ (P : Provider) (now : Nat) (db : DB) (reqId : String)
      (dr : DesignRequest) (cfg : TrelloConfig) (l1 : TrelloList)
      (restLists : List TrelloList),
      db.design_requests.find? (fun r => r.id == reqId) = some dr →
      dr.client.trello_config = some cfg →
      configOkCreate (some cfg) = true →
      truthy cfg.list_id = false →
      truthy cfg.default_list_id = false →
      P.listLists (cfg.board_id.getD "") = .ok (l1 :: restLists) →
      ∃ entry card rest,
        (createTrelloCard P now db reqId).events =
          [.net (.getListsCall (cfg.board_id.getD "")), .insertLog entry,
            .net (.createCall card)] ++ rest ∧
        card.idList = some l1.id := by
  intro P now db reqId dr cfg l1 restLists hfind htc hok hl hd hll
  cases hp : P.createCard (buildCardData dr cfg (some l1.id)) with
  | ok r =>
      refine ⟨newSyncLog db now dr "create" none, buildCardData dr cfg (some l1.id),
        [.updateRequest reqId, .updateLog (newSyncLog db now dr "create" none).id,
          .activity "trello_card_created"], ?_, rfl⟩
      simp [createTrelloCard, hfind, htc, hok, resolveIdList, hl,
        getDefaultListId, hd, hll, wrapProviderError, hp]
  | error e =>
      refine ⟨newSyncLog db now dr "create" none, buildCardData dr cfg (some l1.id),
        [.updateLog (newSyncLog db now dr "create" none).id, .updateRequest reqId], ?_, rfl⟩
      simp [createTrelloCard, hfind, htc, hok, resolveIdList, hl,
        getDefaultListId, hd, hll, wrapProviderError, hp]

/-- Witness for C9: a client with neither list id configured and a
provider returning lists L1 then L2 creates the card in L1. -/
theorem createTrelloCard_first_list_default_witness :
    ∃ entry card rest,
      (createTrelloCard okProvider 0
        ⟨[{ testRequest with
              client := ⟨"client1", some { testConfig with list_id := none }⟩ }], [], 0⟩
        "r1").events =
        [.net (.getListsCall "b"), .insertLog entry, .net (.createCall card)] ++ rest ∧
      card.idList = some "L1" :=
  createTrelloCard_first_list_default okProvider 0
    ⟨[{ testRequest with
          client := ⟨"client1", some { testConfig with list_id := none }⟩ }], [], 0⟩
    "r1"
    { testRequest with client := ⟨"client1", some { testConfig with list_id := none }⟩ }
    { testConfig with list_id := none } ⟨"L1", "A"⟩ [⟨"L2", "B"⟩]
    (by decide) (by decide) (by decide) (by decide) (by decide) (by rfl)

/-- C4: when a selected entry fails again, the loop applies the
renewed-failure bookkeeping: retry_count is incremented; a new count of 5
makes the status failed_permanently with next_retry_at null, so no sweep
at any later time selects the entry again; a smaller new count keeps
status failed and recomputes next_retry_at with the backoff formula at the
new count. -/
theorem processFailedSyncs_renewed_failure :
    ∀ (now t : Nat) (e : SyncLog) (msg : String) (k : Nat),
      e.retry_count = some k →
      sweepSelects now e = true →
      (∀ (P : Provider) (updateFails : Nat → Bool) (db db1 : DB)
         (rest : List SyncLog) (acc : List RetryResult),
        sweepAttempt P now db e = (.error msg, db1) →
        updateFails e.id = false →
        sweepLoop P updateFails now (e :: rest) db acc =
          sweepLoop P updateFails now rest
            (updateLogRow db1 e.id (renewedFailureFields now msg e))
            ({ sync_log_id := e.id, success := false, error := some msg
             , retry_count := some (k + 1) } :: acc)) ∧
      (renewedFailureFields now msg e e).retry_count = some (k + 1) ∧
      (k + 1 = 5 →
        (renewedFailureFields now msg e e).status = "failed_permanently" ∧
        (renewedFailureFields now msg e e).next_retry_at = none ∧
        sweepSelects t (renewedFailureFields now msg e e) = false) ∧
      (k + 1 < 5 →
        (renewedFailureFields now msg e e).status = "failed" ∧
        (renewedFailureFields now msg e e).next_retry_at =
          some (calculateNextRetry now (k + 1))) := by
  intro now t e msg k hk hsel
  refine ⟨?_, ?_, ?_, ?_⟩
  · intro P updateFails db db1 rest acc hatt hwrite
    simp only [sweepLoop, hatt, hwrite, Bool.false_eq_true, if_false, hk, Option.getD_some]
  · simp [renewedFailureFields, hk]
  · intro h5
    have hle : 4 ≤ k := by omega
    refine ⟨?_, ?_, ?_⟩
    · simp [renewedFailureFields, hk, hle]
    · simp [renewedFailureFields, hk, hle]
    · simp [sweepSelects, renewedFailureFields, hk, hle]
  · intro h5
    have hn : ¬ 4 ≤ k := by omega
    constructor
    · simp [renewedFailureFields, hk, hn]
    · simp [renewedFailureFields, hk, hn]

/-- Concrete failed ledger entry at retry count 4, used by witness
instantiations. -/
def testEntry : SyncLog :=
  { id := 7, client_id := "client1", design_request_id := "missing"
  , sync_type := "trello_card", operation := "create", status := "failed"
  , trello_card_id := none, trello_response := none, synced_by := "pending"
  , error_message := some "boom", retry_count := some 4
  , next_retry_at := some 5, completed_at := none, created_at := 1 }

/-- Witness for C4: an entry at retry count 4 that fails again becomes
failed_permanently with no next retry and is never selected again, and
the loop step applies exactly this bookkeeping. -/
theorem processFailedSyncs_renewed_failure_witness :
    (sweepLoop failProvider (fun _ => false) 10 [testEntry] ⟨[], [testEntry], 0⟩ [] =
      sweepLoop failProvider (fun _ => false) 10 []
        (updateLogRow ⟨[], [testEntry], 0⟩ testEntry.id
          (renewedFailureFields 10 "Design request not found" testEntry))
        [{ sync_log_id := testEntry.id, success := false
         , error := some "Design request not found", retry_count := some 5 }]) ∧
    (renewedFailureFields 10 "Design request not found" testEntry testEntry).status =
      "failed_permanently" ∧
    (renewedFailureFields 10 "Design request not found" testEntry testEntry).next_retry_at =
      none ∧
    sweepSelects 99999999
      (renewedFailureFields 10 "Design request not found" testEntry testEntry) = false := by
  have h := processFailedSyncs_renewed_failure 10 99999999 testEntry
    "Design request not found" 4 (by decide) (by decide)
  have h5 := h.2.2.1 (by omega)
  exact ⟨h.1 failProvider (fun _ => false) ⟨[], [testEntry], 0⟩ ⟨[], [testEntry], 0⟩ [] []
      (by rfl) (by rfl), h5.1, h5.2.1, h5.2.2⟩

/-- Configuration with api_key and token present but no board_id, used to
refute the board_id part of the configuration guard on the update path. -/
def noBoardConfig : TrelloConfig := { testConfig with board_id := none }

/-- Store whose only request belongs to a client configured without a
board_id. -/
def noBoardDB : DB :=
  ⟨[{ testRequest with client := ⟨"client1", some noBoardConfig⟩ }], [], 0⟩

/-- Counterexample to C1 as stated: an update sync attempt for a client
whose trello_config lacks board_id does not fail with a configuration
error; it makes the provider call, creates a ledger row and succeeds. -/
theorem updateTrelloCard_missing_board_id_counterexample :
    truthy noBoardConfig.board_id = false ∧
    (updateTrelloCard okProvider 0 noBoardDB "r1"
      ⟨some "n", none, none, none, none⟩).result = .ok ⟨"newcard", some "url"⟩ ∧
    .net (.updateCall "card1" (buildTrelloUpdateData ⟨some "n", none, none, none, none⟩)) ∈
      (updateTrelloCard okProvider 0 noBoardDB "r1"
        ⟨some "n", none, none, none, none⟩).events ∧
    (updateTrelloCard okProvider 0 noBoardDB "r1"
      ⟨some "n", none, none, none, none⟩).db.sync_logs.length = 1 := by
  refine ⟨by decide, by rfl, ?_, by rfl⟩
  simp [updateTrelloCard, noBoardDB, noBoardConfig, testRequest, testClient, testConfig,
    configOkUpdate, truthy, wrapProviderError, okProvider]

/-- C1 amended: a create attempt fails fast with the configuration error
when api_key, token or board_id is missing or empty, and update and
comment attempts fail fast when api_key or token is missing or empty
(board_id is not checked on those paths); in every such case the run
makes no network call, creates no ledger row and leaves the store
untouched. -/
theorem syncCard_config_guard :
    ∀ (P : Provider) (now : Nat) (db : DB) (reqId : String)
      (u : UpdateData) (comment : String) (dr : DesignRequest),
      db.design_requests.find? (fun r => r.id == reqId) = some dr →
      (configOkCreate dr.client.trello_config = false →
        (createTrelloCard P now db reqId).result =
          .error "Trello configuration not found for client" ∧
        (createTrelloCard P now db reqId).events = [] ∧
        (createTrelloCard P now db reqId).db = db) ∧
      (truthy dr.trello_card_id = true →
        configOkUpdate dr.client.trello_config = false →
        (updateTrelloCard P now db reqId u).result =
          .error "Trello configuration not found for client" ∧
        (updateTrelloCard P now db reqId u).events = [] ∧
        (updateTrelloCard P now db reqId u).db = db) ∧
      (truthy dr.trello_card_id = true →
        configOkUpdate dr.client.trello_config = false →
        (addTrelloComment P now db reqId comment).result =
          .error "Trello configuration not found for client" ∧
        (addTrelloComment P now db reqId comment).events = [] ∧
        (addTrelloComment P now db reqId comment).db = db) := by
  intro P now db reqId u comment dr hfind
  refine ⟨?_, ?_, ?_⟩
  · intro hcfg
    refine ⟨?_, ?_, ?_⟩ <;> simp [createTrelloCard, hfind, hcfg]
  · intro hcard hcfg
    refine ⟨?_, ?_, ?_⟩ <;> simp [updateTrelloCard, hfind, hcard, hcfg]
  · intro hcard hcfg
    refine ⟨?_, ?_, ?_⟩ <;> simp [addTrelloComment, hfind, hcard, hcfg]

/-- Witness for C1: a client whose configuration lacks the token fails
fast on create, update and comment with no events and no store change. -/
theorem syncCard_config_guard_witness :
    (createTrelloCard okProvider 0
      ⟨[{ testRequest with client := ⟨"client1", some { testConfig with token := none }⟩ }], [], 0⟩
      "r1").events = [] ∧
    (updateTrelloCard okProvider 0
      ⟨[{ testRequest with client := ⟨"client1", some { testConfig with token := none }⟩ }], [], 0⟩
      "r1" ⟨some "n", none, none, none, none⟩).events = [] ∧
    (addTrelloComment okProvider 0
      ⟨[{ testRequest with client := ⟨"client1", some { testConfig with token := none }⟩ }], [], 0⟩
      "r1" "hello").events = [] := by
  have h := syncCard_config_guard okProvider 0
    ⟨[{ testRequest with client := ⟨"client1", some { testConfig with token := none }⟩ }], [], 0⟩
    "r1" ⟨some "n", none, none, none, none⟩ "hello"
    { testRequest with client := ⟨"client1", some { testConfig with token := none }⟩ }
    (by decide)
  exact ⟨(h.1 (by decide)).2.1, (h.2.1 (by decide) (by decide)).2.1,
    (h.2.2 (by decide) (by decide)).2.1⟩

/-- Recognizes ledger-insert events in a trace. -/
def isInsertEvent : Event → Bool
  | .insertLog _ => true
  | _ => false

/-- Recognizes ledger-update events for a given row id in a trace. -/
def isUpdateLogEvent (i : Nat) : Event → Bool
  | .updateLog j => j == i
  | _ => false

/-- Every event produced while resolving the target list is a board-lists
network call. -/
theorem resolveIdList_events_net (P : Provider) (cfg : TrelloConfig) :
    ∀ ev ∈ (resolveIdList P cfg).2, ∃ b, ev = .net (.getListsCall b) := by
  intro ev hev
  unfold resolveIdList getDefaultListId at hev
  by_cases h1 : truthy cfg.list_id
  · simp [h1] at hev
  · by_cases h2 : truthy cfg.default_list_id
    · simp [h1, h2] at hev
    · cases hl : P.listLists (cfg.board_id.getD "") with
      | ok lists =>
          simp [h1, h2, hl] at hev
          exact ⟨_, hev⟩
      | error e =>
          simp [h1, h2, hl] at hev
          exact ⟨_, hev⟩

/-- A filter by a predicate that is false on every element is empty. -/
theorem filter_eq_nil_of_forall_false {p : Event → Bool} (evs : List Event)
    (h : ∀ ev ∈ evs, p ev = false) : evs.filter p = [] := by
  induction evs with
  | nil => rfl
  | cons a t ih =>
      have ha := h a (List.mem_cons_self a t)
      simp only [List.filter_cons, ha, Bool.false_eq_true, if_false]
      exact ih (fun ev hev => h ev (List.mem_cons_of_mem a hev))

/-- A row-wise ledger update leaves rows with other ids unchanged. -/
theorem map_update_noop (ls : List SyncLog) (i : Nat) (f : SyncLog → SyncLog)
    (h : ∀ l ∈ ls, (l.id == i) = false) :
    ls.map (fun l => if l.id == i then f l else l) = ls := by
  induction ls with
  | nil => rfl
  | cons a t ih =>
      have ha := h a (List.mem_cons_self a t)
      simp only [List.map_cons, ha, Bool.false_eq_true, if_false]
      rw [ih (fun l hl => h l (List.mem_cons_of_mem a hl))]

/-- A row-wise ledger update leaves rows with other ids unchanged, stated
with propositional equality on ids. -/
theorem map_update_noop_eq (ls : List SyncLog) (i : Nat) (f : SyncLog → SyncLog)
    (h : ∀ l ∈ ls, l.id ≠ i) :
    ls.map (fun l => if l.id = i then f l else l) = ls := by
  induction ls with
  | nil => rfl
  | cons a t ih =>
      have ha := h a (List.mem_cons_self a t)
      simp only [List.map_cons, ha, if_false]
      rw [ih (fun l hl => h l (List.mem_cons_of_mem a hl))]

/-- A row-wise ledger update of a freshly appended row rewrites exactly
that row. -/
theorem map_update_append_fresh (ls : List SyncLog) (entry : SyncLog)
    (f : SyncLog → SyncLog) (h : ∀ l ∈ ls, (l.id == entry.id) = false) :
    (ls ++ [entry]).map (fun l => if l.id == entry.id then f l else l) =
      ls ++ [f entry] := by
  rw [List.map_append, map_update_noop ls entry.id f h]
  simp

/-- C2 amended: a create or update attempt that passes its guards appends
exactly one ledger row, inserted with status in_progress strictly before
the card network call, and updates that row exactly once, leaving it in a
terminal completed or failed state; a comment attempt never inserts or
touches any ledger row. -/
theorem syncLedger_lifecycle :
    (∀ (P : Provider) (now : Nat) (db : DB) (reqId : String) (dr : DesignRequest)
       (cfg : TrelloConfig) (lid : Option String) (evs : List Event),
      db.design_requests.find? (fun r => r.id == reqId) = some dr →
      dr.client.trello_config = some cfg →
      configOkCreate (some cfg) = true →
      resolveIdList P cfg = (.ok lid, evs) →
      (∀ l ∈ db.sync_logs, l.id < db.next_log_id) →
      ∃ rest final,
        (createTrelloCard P now db reqId).events =
          evs ++ .insertLog (newSyncLog db now dr "create" none) ::
            .net (.createCall (buildCardData dr cfg lid)) :: rest ∧
        (newSyncLog db now dr "create" none).status = "in_progress" ∧
        (∀ ev ∈ evs, ∃ b, ev = .net (.getListsCall b)) ∧
        ((createTrelloCard P now db reqId).events.filter isInsertEvent).length = 1 ∧
        ((createTrelloCard P now db reqId).events.filter
          (isUpdateLogEvent (newSyncLog db now dr "create" none).id)).length = 1 ∧
        (createTrelloCard P now db reqId).db.sync_logs = db.sync_logs ++ [final] ∧
        (final.status = "completed" ∨ final.status = "failed")) ∧
    (∀ (P : Provider) (now : Nat) (db : DB) (reqId : String) (u : UpdateData)
       (dr : DesignRequest),
      db.design_requests.find? (fun r => r.id == reqId) = some dr →
      truthy dr.trello_card_id = true →
      configOkUpdate dr.client.trello_config = true →
      (∀ l ∈ db.sync_logs, l.id < db.next_log_id) →
      ∃ rest final,
        (updateTrelloCard P now db reqId u).events =
          .insertLog (newSyncLog db now dr "update" dr.trello_card_id) ::
            .net (.updateCall (dr.trello_card_id.getD "") (buildTrelloUpdateData u)) :: rest ∧
        (newSyncLog db now dr "update" dr.trello_card_id).status = "in_progress" ∧
        ((updateTrelloCard P now db reqId u).events.filter isInsertEvent).length = 1 ∧
        ((updateTrelloCard P now db reqId u).events.filter
          (isUpdateLogEvent (newSyncLog db now dr "update" dr.trello_card_id).id)).length = 1 ∧
        (updateTrelloCard P now db reqId u).db.sync_logs = db.sync_logs ++ [final] ∧
        (final.status = "completed" ∨ final.status = "failed")) ∧
    (∀ (P : Provider) (now : Nat) (db : DB) (reqId : String) (c : String),
      (addTrelloComment P now db reqId c).db.sync_logs = db.sync_logs ∧
      ∀ ev ∈ (addTrelloComment P now db reqId c).events, isInsertEvent ev = false) := by
  refine ⟨?_, ?_, ?_⟩
  · intro P now db reqId dr cfg lid evs hfind htc hok hres hfresh
    have hnet := resolveIdList_events_net P cfg
    rw [hres] at hnet
    have hIns : evs.filter isInsertEvent = [] :=
      filter_eq_nil_of_forall_false evs (fun ev hev => by
        obtain ⟨b, rfl⟩ := hnet ev hev; rfl)
    have hUpd : evs.filter (isUpdateLogEvent (newSyncLog db now dr "create" none).id) = [] :=
      filter_eq_nil_of_forall_false evs (fun ev hev => by
        obtain ⟨b, rfl⟩ := hnet ev hev; rfl)
    have hfreshBeq : ∀ l ∈ db.sync_logs,
        (l.id == (newSyncLog db now dr "create" none).id) = false := by
      intro l hl
      have := hfresh l hl
      simp only [newSyncLog, beq_eq_false_iff_ne, ne_eq]
      omega
    cases hp : P.createCard (buildCardData dr cfg lid) with
    | ok r =>
        refine ⟨[.updateRequest reqId,
            .updateLog (newSyncLog db now dr "create" none).id,
            .activity "trello_card_created"],
          { newSyncLog db now dr "create" none with
              status := "completed", trello_card_id := some r.id,
              trello_response := some r, synced_by := "direct_api",
              completed_at := some now }, ?_, rfl, hnet, ?_, ?_, ?_, Or.inl rfl⟩
        · simp [createTrelloCard, hfind, htc, hok, hres, wrapProviderError, hp]
        · simp [createTrelloCard, hfind, htc, hok, hres, wrapProviderError, hp,
            List.filter_append, hIns, isInsertEvent]
        · simp [createTrelloCard, hfind, htc, hok, hres, wrapProviderError, hp,
            List.filter_append, hUpd, isUpdateLogEvent]
        · have heq := map_update_append_fresh db.sync_logs (newSyncLog db now dr "create" none) (fun l => { l with status := "completed", trello_card_id := some r.id, trello_response := some r, synced_by := "direct_api", completed_at := some now }) hfreshBeq
          simp [createTrelloCard, hfind, htc, hok, hres, wrapProviderError, hp,
            updateLogRow, updateRequestRow, heq]
          exact map_update_noop_eq db.sync_logs _ _ (fun l hl => by
            have hlt := hfresh l hl
            simp only [newSyncLog]
            omega)
    | error e =>
        refine ⟨[.updateLog (newSyncLog db now dr "create" none).id,
            .updateRequest reqId],
          { newSyncLog db now dr "create" none with
              status := "failed",
              error_message := some ("Trello create failed: " ++ e),
              retry_count := some 0,
              next_retry_at := some (calculateNextRetry now 0) },
          ?_, rfl, hnet, ?_, ?_, ?_, Or.inr rfl⟩
        · simp [createTrelloCard, hfind, htc, hok, hres, wrapProviderError, hp]
        · simp [createTrelloCard, hfind, htc, hok, hres, wrapProviderError, hp,
            List.filter_append, hIns, isInsertEvent]
        · simp [createTrelloCard, hfind, htc, hok, hres, wrapProviderError, hp,
            List.filter_append, hUpd, isUpdateLogEvent]
        · have heq := map_update_append_fresh db.sync_logs (newSyncLog db now dr "create" none) (fun l => { l with status := "failed", error_message := some ("Trello " ++ "create" ++ " failed: " ++ e), retry_count := some 0, next_retry_at := some (calculateNextRetry now 0) }) hfreshBeq
          simp [createTrelloCard, hfind, htc, hok, hres, wrapProviderError, hp,
            updateLogRow, updateRequestRow, heq]
          exact map_update_noop_eq db.sync_logs _ _ (fun l hl => by
            have hlt := hfresh l hl
            simp only [newSyncLog]
            omega)
  · intro P now db reqId u dr hfind hcard hcfg hfresh
    have hfreshBeq : ∀ l ∈ db.sync_logs,
        (l.id == (newSyncLog db now dr "update" dr.trello_card_id).id) = false := by
      intro l hl
      have := hfresh l hl
      simp only [newSyncLog, beq_eq_false_iff_ne, ne_eq]
      omega
    cases hp : P.updateCard (dr.trello_card_id.getD "") (buildTrelloUpdateData u) with
    | ok r =>
        refine ⟨[.updateLog (newSyncLog db now dr "update" dr.trello_card_id).id,
            .updateRequest reqId, .activity "trello_card_updated"],
          { newSyncLog db now dr "update" dr.trello_card_id with
              status := "completed", trello_response := some r,
              synced_by := "direct_api", completed_at := some now },
          ?_, rfl, ?_, ?_, ?_, Or.inl rfl⟩
        · simp [updateTrelloCard, hfind, hcard, hcfg, wrapProviderError, hp]
        · simp [updateTrelloCard, hfind, hcard, hcfg, wrapProviderError, hp, isInsertEvent]
        · simp [updateTrelloCard, hfind, hcard, hcfg, wrapProviderError, hp, isUpdateLogEvent]
        · have heq := map_update_append_fresh db.sync_logs (newSyncLog db now dr "update" dr.trello_card_id) (fun l => { l with status := "completed", trello_response := some r, synced_by := "direct_api", completed_at := some now }) hfreshBeq
          simp [updateTrelloCard, hfind, hcard, hcfg, wrapProviderError, hp,
            updateLogRow, updateRequestRow, heq]
          exact map_update_noop_eq db.sync_logs _ _ (fun l hl => by
            have hlt := hfresh l hl
            simp only [newSyncLog]
            omega)
    | error e =>
        refine ⟨[.updateLog (newSyncLog db now dr "update" dr.trello_card_id).id],
          { newSyncLog db now dr "update" dr.trello_card_id with
              status := "failed",
              error_message := some ("Trello update failed: " ++ e),
              retry_count := some 0,
              next_retry_at := some (calculateNextRetry now 0) },
          ?_, rfl, ?_, ?_, ?_, Or.inr rfl⟩
        · simp [updateTrelloCard, hfind, hcard, hcfg, wrapProviderError, hp]
        · simp [updateTrelloCard, hfind, hcard, hcfg, wrapProviderError, hp, isInsertEvent]
        · simp [updateTrelloCard, hfind, hcard, hcfg, wrapProviderError, hp, isUpdateLogEvent]
        · have heq := map_update_append_fresh db.sync_logs (newSyncLog db now dr "update" dr.trello_card_id) (fun l => { l with status := "failed", error_message := some ("Trello " ++ "update" ++ " failed: " ++ e), retry_count := some 0, next_retry_at := some (calculateNextRetry now 0) }) hfreshBeq
          simp [updateTrelloCard, hfind, hcard, hcfg, wrapProviderError, hp,
            updateLogRow, updateRequestRow, heq]
          exact map_update_noop_eq db.sync_logs _ _ (fun l hl => by
            have hlt := hfresh l hl
            simp only [newSyncLog]
            omega)
  · intro P now db reqId c
    cases hfind : db.design_requests.find? (fun r => r.id == reqId) with
    | none => simp [addTrelloComment, hfind, isInsertEvent]
    | some dr =>
        cases hcard : truthy dr.trello_card_id with
        | false => simp [addTrelloComment, hfind, hcard, isInsertEvent]
        | true =>
            cases hcfg : configOkUpdate dr.client.trello_config with
            | false => simp [addTrelloComment, hfind, hcard, hcfg, isInsertEvent]
            | true =>
                cases hp : P.addComment (dr.trello_card_id.getD "") c with
                | ok r =>
                    simp [addTrelloComment, hfind, hcard, hcfg, wrapProviderError, hp,
                      isInsertEvent]
                | error e =>
                    simp [addTrelloComment, hfind, hcard, hcfg, wrapProviderError, hp,
                      isInsertEvent]

/-- Witness for C2: a concrete create attempt against the test store
appends exactly one ledger row, inserted in_progress before the create
call and updated once to a terminal state, while a concrete comment
attempt leaves the ledger untouched. -/
theorem syncLedger_lifecycle_witness :
    (∃ rest final,
      (createTrelloCard okProvider 0 testDB "r1").events =
        [] ++ .insertLog (newSyncLog testDB 0 testRequest "create" none) ::
          .net (.createCall (buildCardData testRequest testConfig (some "L"))) :: rest ∧
      (newSyncLog testDB 0 testRequest "create" none).status = "in_progress" ∧
      (∀ ev ∈ ([] : List Event), ∃ b, ev = .net (.getListsCall b)) ∧
      ((createTrelloCard okProvider 0 testDB "r1").events.filter isInsertEvent).length = 1 ∧
      ((createTrelloCard okProvider 0 testDB "r1").events.filter
        (isUpdateLogEvent (newSyncLog testDB 0 testRequest "create" none).id)).length = 1 ∧
      (createTrelloCard okProvider 0 testDB "r1").db.sync_logs =
        testDB.sync_logs ++ [final] ∧
      (final.status = "completed" ∨ final.status = "failed")) ∧
    (addTrelloComment okProvider 0 testDB "r1" "hello").db.sync_logs = testDB.sync_logs :=
  ⟨syncLedger_lifecycle.1 okProvider 0 testDB "r1" testRequest testConfig (some "L") []
      (by decide) (by decide) (by decide) (by rfl) (by simp [testDB]),
   (syncLedger_lifecycle.2.2 okProvider 0 testDB "r1" "hello").1⟩

/-- Counterexample to C2 as stated: a comment sync attempt completes a
provider call yet creates no SyncLogEntry at all; the ledger is empty
before and after the attempt. -/
theorem addTrelloComment_no_ledger_counterexample :
    (addTrelloComment okProvider 0 testDB "r1" "hi").result = .ok ⟨"cmt", none⟩ ∧
    .net (.commentCall "card1" "hi") ∈
      (addTrelloComment okProvider 0 testDB "r1" "hi").events ∧
    (addTrelloComment okProvider 0 testDB "r1" "hi").db.sync_logs = [] := by
  refine ⟨by rfl, by decide, by rfl⟩

/-- Lookup by id after a row update keyed on the same id returns the
updated row, provided the update preserves ids. -/
theorem find_update_request (ls : List DesignRequest) (rid : String)
    (dr : DesignRequest) (f : DesignRequest → DesignRequest)
    (hf : ∀ r, (f r).id = r.id)
    (h : ls.find? (fun r => r.id == rid) = some dr) :
    (ls.map (fun r => if r.id == rid then f r else r)).find?
      (fun r => r.id == rid) = some (f dr) := by
  induction ls with
  | nil => simp at h
  | cons a t ih =>
      cases hb : (a.id == rid) with
      | true =>
          rw [List.find?_cons] at h
          simp only [hb] at h
          have hdr : a = dr := by simpa using h
          subst hdr
          have hb3 : (((f a).id == rid) = true) := by rw [hf a]; exact hb
          simp only [List.map_cons, hb, if_true, List.find?_cons, hb3]
      | false =>
          rw [List.find?_cons] at h
          simp only [hb] at h
          simp only [List.map_cons, hb, Bool.false_eq_true, if_false, List.find?_cons]
          exact ih h

/-- C6: when the provider rejects the card-create call, the appended
ledger row is written failed with retry_count 0 and next_retry_at five
minutes after now, the design request row becomes sync_status failed with
the wrapped error recorded and sync_attempts incremented, the error is
re-raised to the caller, and the submission flow still reaches its
success redirect. -/
theorem createTrelloCard_provider_rejection :
    ∀ (P : Provider) (now : Nat) (db : DB) (reqId : String) (dr : DesignRequest)
      (cfg : TrelloConfig) (lid : Option String) (evs : List Event) (emsg : String),
      db.design_requests.find? (fun r => r.id == reqId) = some dr →
      dr.client.trello_config = some cfg →
      configOkCreate (some cfg) = true →
      resolveIdList P cfg = (.ok lid, evs) →
      P.createCard (buildCardData dr cfg lid) = .error emsg →
      (∀ l ∈ db.sync_logs, l.id < db.next_log_id) →
      ∃ final,
        (createTrelloCard P now db reqId).db.sync_logs = db.sync_logs ++ [final] ∧
        final.status = "failed" ∧
        final.retry_count = some 0 ∧
        final.next_retry_at = some (now + 5 * 60 * 1000) ∧
        (∃ dr2, (createTrelloCard P now db reqId).db.design_requests.find?
            (fun r => r.id == reqId) = some dr2 ∧
          dr2.sync_status = "failed" ∧
          dr2.sync_error = some ("Trello create failed: " ++ emsg) ∧
          dr2.sync_attempts = some (dr.sync_attempts.getD 0 + 1)) ∧
        (createTrelloCard P now db reqId).result =
          .error ("Trello create failed: " ++ emsg) ∧
        (submitTrelloStep P now db reqId).1 = true := by
  intro P now db reqId dr cfg lid evs emsg hfind htc hok hres hp hfresh
  have hfreshBeq : ∀ l ∈ db.sync_logs,
      (l.id == (newSyncLog db now dr "create" none).id) = false := by
    intro l hl
    have := hfresh l hl
    simp only [newSyncLog, beq_eq_false_iff_ne, ne_eq]
    omega
  have heq := map_update_append_fresh db.sync_logs (newSyncLog db now dr "create" none) (fun l => { l with status := "failed", error_message := some ("Trello " ++ "create" ++ " failed: " ++ emsg), retry_count := some 0, next_retry_at := some (calculateNextRetry now 0) }) hfreshBeq
  refine ⟨{ newSyncLog db now dr "create" none with status := "failed", error_message := some ("Trello create failed: " ++ emsg), retry_count := some 0, next_retry_at := some (calculateNextRetry now 0) }, ?_, rfl, rfl, ?_, ?_, ?_, rfl⟩
  · simp [createTrelloCard, hfind, htc, hok, hres, wrapProviderError, hp,
      updateLogRow, updateRequestRow, heq]
    exact map_update_noop_eq db.sync_logs _ _ (fun l hl => by
      have hlt := hfresh l hl
      simp only [newSyncLog]
      omega)
  · simp [calculateNextRetry]
  · have hfe := find_update_request db.design_requests reqId dr
      (fun r => { r with sync_status := "failed", sync_error := some ("Trello " ++ "create" ++ " failed: " ++ emsg), sync_attempts := some (dr.sync_attempts.getD 0 + 1) })
      (fun r => rfl) hfind
    refine ⟨{ dr with sync_status := "failed", sync_error := some ("Trello create failed: " ++ emsg), sync_attempts := some (dr.sync_attempts.getD 0 + 1) }, ?_, rfl, rfl, rfl⟩
    simp [createTrelloCard, hfind, htc, hok, hres, wrapProviderError, hp,
      updateLogRow, updateRequestRow] at hfe ⊢
    exact hfe
  · simp [createTrelloCard, hfind, htc, hok, hres, wrapProviderError, hp]

/-- Witness for C6: a concrete create attempt whose provider rejects with
a 401 writes the failed ledger row, marks the request failed and still
lets the submission step succeed. -/
theorem createTrelloCard_provider_rejection_witness :
    ∃ final,
      (createTrelloCard failProvider 0 testDB "r1").db.sync_logs =
        testDB.sync_logs ++ [final] ∧
      final.status = "failed" ∧
      final.retry_count = some 0 ∧
      final.next_retry_at = some (0 + 5 * 60 * 1000) ∧
      (∃ dr2, (createTrelloCard failProvider 0 testDB "r1").db.design_requests.find?
          (fun r => r.id == "r1") = some dr2 ∧
        dr2.sync_status = "failed" ∧
        dr2.sync_error = some ("Trello create failed: " ++ "401 unauthorized") ∧
        dr2.sync_attempts = some (testRequest.sync_attempts.getD 0 + 1)) ∧
      (createTrelloCard failProvider 0 testDB "r1").result =
        .error ("Trello create failed: " ++ "401 unauthorized") ∧
      (submitTrelloStep failProvider 0 testDB "r1").1 = true :=
  createTrelloCard_provider_rejection failProvider 0 testDB "r1" testRequest
    testConfig (some "L") [] "401 unauthorized"
    (by decide) (by decide) (by decide) (by rfl) (by rfl) (by simp [testDB])

/-- C10: when the provider rejects the card-update call, only the ledger
is touched: the appended row is marked failed with retry_count 0 and a
next retry time, the error is re-raised, the design_requests table is
left exactly as it was (so sync_status, sync_error and sync_attempts keep
their prior values), and the trace contains no design-request row
update. -/
theorem updateTrelloCard_failure_frame :
    ∀ (P : Provider) (now : Nat) (db : DB) (reqId : String) (u : UpdateData)
      (dr : DesignRequest) (emsg : String),
      db.design_requests.find? (fun r => r.id == reqId) = some dr →
      truthy dr.trello_card_id = true →
      configOkUpdate dr.client.trello_config = true →
      P.updateCard (dr.trello_card_id.getD "") (buildTrelloUpdateData u) = .error emsg →
      (∀ l ∈ db.sync_logs, l.id < db.next_log_id) →
      (updateTrelloCard P now db reqId u).db.design_requests = db.design_requests ∧
      (updateTrelloCard P now db reqId u).result =
        .error ("Trello update failed: " ++ emsg) ∧
      (∃ final,
        (updateTrelloCard P now db reqId u).db.sync_logs = db.sync_logs ++ [final] ∧
        final.status = "failed" ∧
        final.retry_count = some 0 ∧
        final.next_retry_at = some (now + 5 * 60 * 1000)) ∧
      (∀ ev ∈ (updateTrelloCard P now db reqId u).events,
        ∀ rid, ev ≠ .updateRequest rid) := by
  intro P now db reqId u dr emsg hfind hcard hcfg hp hfresh
  have hfreshBeq : ∀ l ∈ db.sync_logs,
      (l.id == (newSyncLog db now dr "update" dr.trello_card_id).id) = false := by
    intro l hl
    have := hfresh l hl
    simp only [newSyncLog, beq_eq_false_iff_ne, ne_eq]
    omega
  have heq := map_update_append_fresh db.sync_logs (newSyncLog db now dr "update" dr.trello_card_id) (fun l => { l with status := "failed", error_message := some ("Trello " ++ "update" ++ " failed: " ++ emsg), retry_count := some 0, next_retry_at := some (calculateNextRetry now 0) }) hfreshBeq
  refine ⟨?_, ?_, ?_, ?_⟩
  · simp [updateTrelloCard, hfind, hcard, hcfg, wrapProviderError, hp, updateLogRow]
  · simp [updateTrelloCard, hfind, hcard, hcfg, wrapProviderError, hp]
  · refine ⟨{ newSyncLog db now dr "update" dr.trello_card_id with status := "failed", error_message := some ("Trello update failed: " ++ emsg), retry_count := some 0, next_retry_at := some (calculateNextRetry now 0) }, ?_, rfl, rfl, by simp [calculateNextRetry]⟩
    simp [updateTrelloCard, hfind, hcard, hcfg, wrapProviderError, hp,
      updateLogRow, heq]
    exact map_update_noop_eq db.sync_logs _ _ (fun l hl => by
      have hlt := hfresh l hl
      simp only [newSyncLog]
      omega)
  · intro ev hev rid
    simp [updateTrelloCard, hfind, hcard, hcfg, wrapProviderError, hp] at hev
    rcases hev with h | h | h <;> simp [h]

/-- Witness for C10: a concrete update attempt whose provider rejects
leaves the design_requests table unchanged and appends one failed ledger
row. -/
theorem updateTrelloCard_failure_frame_witness :
    (updateTrelloCard failProvider 0 testDB "r1"
      ⟨some "n", none, none, none, none⟩).db.design_requests =
        testDB.design_requests ∧
    (updateTrelloCard failProvider 0 testDB "r1"
      ⟨some "n", none, none, none, none⟩).result =
        .error ("Trello update failed: " ++ "401 unauthorized") :=
  have h := updateTrelloCard_failure_frame failProvider 0 testDB "r1"
    ⟨some "n", none, none, none, none⟩ testRequest "401 unauthorized"
    (by decide) (by decide) (by decide) (by rfl) (by simp [testDB])
  ⟨h.1, h.2.1⟩

/-- Second concrete failed ledger entry, eligible for the same sweep as
testEntry. -/
def testEntry2 : SyncLog :=
  { testEntry with id := 8, retry_count := some 0, next_retry_at := some 0 }

/-- Store holding two sweep-eligible failed entries and no design
requests, so every retry attempt fails with a missing request. -/
def sweepDB : DB := ⟨[], [testEntry, testEntry2], 0⟩

/-- Counterexample to C5 as stated: with two eligible entries in the
batch, a failure of the bookkeeping write that records the first entry
renewed failure escapes the per-entry handler and aborts the run, so the
second selected entry is never processed: the run returns the raised
store error and the store is left untouched. -/
theorem processFailedSyncs_abort_counterexample :
    sweepSelects 10 testEntry2 = true ∧
    (processFailedSyncs failProvider (fun i => i == 7) 10 sweepDB).1 =
      .error "Failed to update sync log: store rejected the write" ∧
    (processFailedSyncs failProvider (fun i => i == 7) 10 sweepDB).2 = sweepDB := by
  refine ⟨by decide, by rfl, by rfl⟩

/-- C5 amended: a failure of the retry attempt itself never aborts the
batch: whenever the store accepts every bookkeeping write, the sweep loop
runs to completion and reports one result per selected entry, whatever
the individual attempts do. -/
theorem processFailedSyncs_batch_isolation :
    (∀ (P : Provider) (updateFails : Nat → Bool) (now : Nat)
       (batch : List SyncLog) (db : DB) (acc : List RetryResult),
      (∀ i, updateFails i = false) →
      ∃ rs db2, sweepLoop P updateFails now batch db acc = (.ok rs, db2) ∧
        rs.length = batch.length + acc.length) ∧
    (∀ (P : Provider) (updateFails : Nat → Bool) (now : Nat) (db : DB),
      (∀ i, updateFails i = false) →
      ∃ rs db2, processFailedSyncs P updateFails now db = (.ok rs, db2) ∧
        rs.length = ((db.sync_logs.filter (sweepSelects now)).take 10).length) := by
  have hloop : ∀ (P : Provider) (updateFails : Nat → Bool) (now : Nat)
      (batch : List SyncLog) (db : DB) (acc : List RetryResult),
      (∀ i, updateFails i = false) →
      ∃ rs db2, sweepLoop P updateFails now batch db acc = (.ok rs, db2) ∧
        rs.length = batch.length + acc.length := by
    intro P updateFails now batch
    induction batch with
    | nil =>
        intro db acc hwf
        exact ⟨acc.reverse, db, rfl, by simp⟩
    | cons l rest ih =>
        intro db acc hwf
        cases hatt : sweepAttempt P now db l with
        | mk res db1 =>
            cases res with
            | ok v =>
                obtain ⟨rs, db2, hrun, hlen⟩ :=
                  ih db1 ({ sync_log_id := l.id, success := true, error := none
                          , retry_count := none } :: acc) hwf
                refine ⟨rs, db2, ?_, ?_⟩
                · simp only [sweepLoop, hatt]
                  exact hrun
                · simp only [List.length_cons] at hlen
                  simp only [List.length_cons]
                  omega
            | error msg =>
                obtain ⟨rs, db2, hrun, hlen⟩ :=
                  ih (updateLogRow db1 l.id (renewedFailureFields now msg l))
                    ({ sync_log_id := l.id, success := false, error := some msg
                     , retry_count := some (l.retry_count.getD 0 + 1) } :: acc) hwf
                refine ⟨rs, db2, ?_, ?_⟩
                · simp only [sweepLoop, hatt, hwf l.id, Bool.false_eq_true, if_false]
                  exact hrun
                · simp only [List.length_cons] at hlen
                  simp only [List.length_cons]
                  omega
  refine ⟨hloop, ?_⟩
  intro P updateFails now db hwf
  obtain ⟨rs, db2, hrun, hlen⟩ :=
    hloop P updateFails now ((db.sync_logs.filter (sweepSelects now)).take 10) db [] hwf
  refine ⟨rs, db2, ?_, ?_⟩
  · simpa [processFailedSyncs] using hrun
  · simpa using hlen

/-- Witness for C5: with every bookkeeping write accepted, the sweep over
two eligible entries whose retries both fail still completes with one
result per entry. -/
theorem processFailedSyncs_batch_isolation_witness :
    ∃ rs db2, processFailedSyncs failProvider (fun _ => false) 10 sweepDB =
      (.ok rs, db2) ∧
      rs.length = ((sweepDB.sync_logs.filter (sweepSelects 10)).take 10).length :=
  processFailedSyncs_batch_isolation.2 failProvider (fun _ => false) 10 sweepDB
    (fun _ => rfl)
